import Mathlib

/-!
Verification development for the mcp-server-cloud-agent repository
(src/index.js).  The transport engine (the `request` helper), the
credential gate and the nine tool handlers are embedded below as pure
Lean functions; network interaction is abstracted as an explicit
remote-behavior value (the possible event sequences of the underlying
Node request object), and the observable actions of a call (connection
attempted, destroy called, headers sent, outcome) are collected in a
trace structure.
-/

set_option autoImplicit false
set_option maxRecDepth 40000

/-- Model of a JavaScript JSON value as produced by JSON.parse.  Numbers
keep their source lexeme: no claim depends on numeric values, and exact
ECMAScript float formatting is outside the model. -/
inductive Json where
  | null : Json
  | bool : Bool → Json
  | num : String → Json
  | str : String → Json
  | arr : List Json → Json
  | obj : List (String × Json) → Json

/-- JSON whitespace accepted by JSON.parse: space, tab, line feed, carriage return. -/
def isJsonWs (c : Char) : Bool :=
  c = ' ' || c = '\t' || c = '\n' || c = '\r'

/-- Drop leading JSON whitespace. -/
def skipWs : List Char → List Char
  | [] => []
  | c :: cs => if isJsonWs c then skipWs cs else c :: cs

/-- Value of a hexadecimal digit, both cases. -/
def hexVal (c : Char) : Option Nat :=
  if c.isDigit then some (c.toNat - 48)
  else if 'a' ≤ c ∧ c ≤ 'f' then some (c.toNat - 87)
  else if 'A' ≤ c ∧ c ≤ 'F' then some (c.toNat - 55)
  else none

/-- Read exactly four hexadecimal digits. -/
def parse4Hex : List Char → Option (Nat × List Char)
  | a :: b :: c :: d :: rest =>
    match hexVal a, hexVal b, hexVal c, hexVal d with
    | some x, some y, some z, some w => some (((x * 16 + y) * 16 + z) * 16 + w, rest)
    | _, _, _, _ => none
  | _ => none

/-- Single-character JSON string escapes. -/
def escChar (c : Char) : Option Char :=
  if c = '\x22' then some '\x22'
  else if c = '\x5c' then some '\x5c'
  else if c = '/' then some '/'
  else if c = 'b' then some '\x08'
  else if c = 'f' then some '\x0c'
  else if c = 'n' then some '\n'
  else if c = 'r' then some '\x0d'
  else if c = 't' then some '\t'
  else none

/-- Parse the body of a JSON string after the opening quote, returning the
decoded characters and the input after the closing quote.  Valid surrogate
pairs in u-escapes are combined; a lone surrogate (representable in a JS
string but not as a Lean character) is mapped to U+FFFD, a corner
unreachable by any claim. -/
def parseStringChars : Nat → List Char → Option (List Char × List Char)
  | 0, _ => none
  | _, [] => none
  | fuel + 1, c :: cs =>
    if c = '\x22' then some ([], cs)
    else if c = '\x5c' then
      match cs with
      | [] => none
      | e :: cs2 =>
        if e = 'u' then
          match parse4Hex cs2 with
          | none => none
          | some (n, cs3) =>
            if 0xd800 ≤ n ∧ n ≤ 0xdbff then
              match cs3 with
              | '\x5c' :: 'u' :: cs4 =>
                match parse4Hex cs4 with
                | some (m, cs5) =>
                  if 0xdc00 ≤ m ∧ m ≤ 0xdfff then
                    (parseStringChars fuel cs5).map
                      (fun p => (Char.ofNat (0x10000 + (n - 0xd800) * 0x400 + (m - 0xdc00)) :: p.1, p.2))
                  else
                    (parseStringChars fuel cs3).map (fun p => (Char.ofNat 0xfffd :: p.1, p.2))
                | none =>
                  (parseStringChars fuel cs3).map (fun p => (Char.ofNat 0xfffd :: p.1, p.2))
              | _ =>
                (parseStringChars fuel cs3).map (fun p => (Char.ofNat 0xfffd :: p.1, p.2))
            else if 0xdc00 ≤ n ∧ n ≤ 0xdfff then
              (parseStringChars fuel cs3).map (fun p => (Char.ofNat 0xfffd :: p.1, p.2))
            else
              (parseStringChars fuel cs3).map (fun p => (Char.ofNat n :: p.1, p.2))
        else
          match escChar e with
          | some ec => (parseStringChars fuel cs2).map (fun p => (ec :: p.1, p.2))
          | none => none
    else if c.toNat < 32 then none
    else
      (parseStringChars fuel cs).map (fun p => (c :: p.1, p.2))

/-- Split a maximal run of decimal digits from the front. -/
def digitsSpan (cs : List Char) : List Char × List Char :=
  (cs.takeWhile Char.isDigit, cs.dropWhile Char.isDigit)

/-- Integer part of a JSON number: either a single zero or digits with no
leading zero. -/
def parseIntPart : List Char → Option (List Char × List Char)
  | [] => none
  | c :: rest =>
    if c = '0' then some (['0'], rest)
    else if c.isDigit then
      let (ds, rest2) := digitsSpan rest
      some (c :: ds, rest2)
    else none

/-- Parse a JSON number, returning its lexeme.  A trailing dot or bare
exponent marker is left unconsumed; enclosing grammar then rejects it,
matching the strictness of JSON.parse. -/
def parseNumber (cs : List Char) : Option (String × List Char) :=
  let (sign, cs1) :=
    match cs with
    | c :: rest => if c = '-' then (['-'], rest) else (([] : List Char), cs)
    | [] => ([], cs)
  match parseIntPart cs1 with
  | none => none
  | some (ip, cs2) =>
    let (fp, cs3) :=
      match cs2 with
      | c :: rest =>
        if c = '.' then
          let (ds, rest2) := digitsSpan rest
          if ds = [] then (([] : List Char), cs2) else (c :: ds, rest2)
        else (([] : List Char), cs2)
      | [] => ([], cs2)
    let (ep, cs4) :=
      match cs3 with
      | c :: rest =>
        if c = 'e' ∨ c = 'E' then
          let (sgn, rest1) :=
            match rest with
            | s :: r2 => if s = '+' ∨ s = '-' then ([s], r2) else (([] : List Char), rest)
            | [] => ([], rest)
          let (ds, rest2) := digitsSpan rest1
          if ds = [] then (([] : List Char), cs3) else (c :: (sgn ++ ds), rest2)
        else (([] : List Char), cs3)
      | [] => ([], cs3)
    some (String.mk (sign ++ ip ++ fp ++ ep), cs4)

mutual

/-- Parse one JSON value (fuel-indexed recursive descent modelling JSON.parse). -/
def parseValue : Nat → List Char → Option (Json × List Char)
  | 0, _ => none
  | fuel + 1, cs =>
    match skipWs cs with
    | '\x22' :: rest =>
      match parseStringChars (rest.length + 1) rest with
      | some (out, rest2) => some (.str (String.mk out), rest2)
      | none => none
    | '\x7b' :: rest => parseObjBody fuel rest
    | '[' :: rest => parseArrBody fuel rest
    | 't' :: 'r' :: 'u' :: 'e' :: rest => some (.bool true, rest)
    | 'f' :: 'a' :: 'l' :: 's' :: 'e' :: rest => some (.bool false, rest)
    | 'n' :: 'u' :: 'l' :: 'l' :: rest => some (.null, rest)
    | cs1 =>
      match parseNumber cs1 with
      | some (lex, rest) => some (.num lex, rest)
      | none => none

/-- Parse an array body after the opening bracket. -/
def parseArrBody : Nat → List Char → Option (Json × List Char)
  | 0, _ => none
  | fuel + 1, cs =>
    match skipWs cs with
    | ']' :: rest => some (.arr [], rest)
    | cs1 =>
      match parseArrElems fuel cs1 with
      | some (xs, rest) => some (.arr xs, rest)
      | none => none

/-- Parse one or more comma-separated array elements up to the closing bracket. -/
def parseArrElems : Nat → List Char → Option (List Json × List Char)
  | 0, _ => none
  | fuel + 1, cs =>
    match parseValue fuel cs with
    | none => none
    | some (v, rest) =>
      match skipWs rest with
      | ',' :: rest2 =>
        match parseArrElems fuel rest2 with
        | some (xs, rest3) => some (v :: xs, rest3)
        | none => none
      | ']' :: rest2 => some ([v], rest2)
      | _ => none

/-- Parse an object body after the opening brace. -/
def parseObjBody : Nat → List Char → Option (Json × List Char)
  | 0, _ => none
  | fuel + 1, cs =>
    match skipWs cs with
    | '\x7d' :: rest => some (.obj [], rest)
    | cs1 =>
      match parseObjMembers fuel cs1 with
      | some (fs, rest) => some (.obj fs, rest)
      | none => none

/-- Parse one or more comma-separated key-value members up to the closing brace. -/
def parseObjMembers : Nat → List Char → Option (List (String × Json) × List Char)
  | 0, _ => none
  | fuel + 1, cs =>
    match skipWs cs with
    | '\x22' :: rest =>
      match parseStringChars (rest.length + 1) rest with
      | none => none
      | some (key, rest2) =>
        match skipWs rest2 with
        | ':' :: rest3 =>
          match parseValue fuel rest3 with
          | none => none
          | some (v, rest4) =>
            match skipWs rest4 with
            | ',' :: rest5 =>
              match parseObjMembers fuel rest5 with
              | some (fs, rest6) => some ((String.mk key, v) :: fs, rest6)
              | none => none
            | '\x7d' :: rest5 => some ([(String.mk key, v)], rest5)
            | _ => none
        | _ => none
    | _ => none

end

/-- Model of JSON.parse: parse one value with surrounding whitespace and
require the whole input to be consumed; any leftover means failure. -/
def parseJson (s : String) : Option Json :=
  match parseValue (2 * s.length + 2) s.data with
  | some (j, rest) =>
    match skipWs rest with
    | [] => some j
    | _ => none
  | none => none

/-- Property lookup on a parsed JSON value, as JS property access on the
result of JSON.parse: for an object the value of the last occurrence of
the key (later duplicate keys overwrite earlier ones), for any other
non-null value `undefined` (here: none).  Access on null throws in JS and
is handled explicitly at each use site. -/
def Json.getField : Json → String → Option Json
  | .obj fs, k => ((fs.filter (fun p => p.1 = k)).getLast?).map (fun p => p.2)
  | _, _ => none

/-- True when the mantissa of a JSON number lexeme is all zeros, i.e. the
numeric value is zero. -/
def numIsZero (lex : String) : Bool :=
  ((lex.data.takeWhile (fun c => c ≠ 'e' ∧ c ≠ 'E')).filter Char.isDigit).all (fun c => c = '0')

/-- JS truthiness of a parsed JSON value. -/
def jsTruthy : Json → Bool
  | .null => false
  | .bool b => b
  | .num lex => !(numIsZero lex)
  | .str s => s ≠ ""
  | .arr _ => true
  | .obj _ => true

mutual

/-- JS String() coercion of a parsed JSON value, as used when a non-string
value reaches new Error(v).  Number formatting is approximated by the
source lexeme (exact ECMAScript float formatting is outside the model;
no claim involves a numeric value here). -/
def jsToString : Json → String
  | .null => "null"
  | .bool true => "true"
  | .bool false => "false"
  | .num lex => lex
  | .str s => s
  | .arr xs => String.intercalate "," (jsToStringArr xs)
  | .obj _ => "[object Object]"

/-- Elementwise String() coercion inside Array.prototype.join: null maps
to the empty string. -/
def jsToStringArr : List Json → List String
  | [] => []
  | .null :: xs => "" :: jsToStringArr xs
  | x :: xs => jsToString x :: jsToStringArr xs

end

/-- Escape one character for a JSON string literal, as JSON.stringify does. -/
def jsonEscapeChar (c : Char) : String :=
  if c = '\x22' then "\x5c\x22"
  else if c = '\x5c' then "\x5c\x5c"
  else if c = '\x08' then "\x5cb"
  else if c = '\x0c' then "\x5cf"
  else if c = '\n' then "\x5cn"
  else if c = '\x0d' then "\x5cr"
  else if c = '\t' then "\x5ct"
  else if c.toNat < 32 then
    "\x5cu00" ++ String.singleton (if c.toNat / 16 < 10 then Char.ofNat (48 + c.toNat / 16) else Char.ofNat (87 + c.toNat / 16))
      ++ String.singleton (if c.toNat % 16 < 10 then Char.ofNat (48 + c.toNat % 16) else Char.ofNat (87 + c.toNat % 16))
  else String.singleton c

/-- Quote a string as a JSON string literal. -/
def jsonQuote (s : String) : String :=
  "\x22" ++ String.join (s.data.map jsonEscapeChar) ++ "\x22"

/-- Two-space indentation prefix at a given depth, as JSON.stringify with
indent argument 2 produces. -/
def indentStr (d : Nat) : String :=
  String.mk (List.replicate (2 * d) ' ')

mutual

/-- Compact JSON.stringify of a parsed value (no indent argument). -/
def stringifyC : Json → String
  | .null => "null"
  | .bool true => "true"
  | .bool false => "false"
  | .num lex => lex
  | .str s => jsonQuote s
  | .arr xs => "[" ++ String.intercalate "," (stringifyCList xs) ++ "]"
  | .obj fs => "\x7b" ++ String.intercalate "," (stringifyCFields fs) ++ "\x7d"

def stringifyCList : List Json → List String
  | [] => []
  | x :: xs => stringifyC x :: stringifyCList xs

def stringifyCFields : List (String × Json) → List String
  | [] => []
  | f :: fs => (jsonQuote f.1 ++ ":" ++ stringifyC f.2) :: stringifyCFields fs

end

mutual

/-- Pretty JSON.stringify with two-space indent, JSON.stringify(v, null, 2),
at nesting depth d. -/
def stringifyP (d : Nat) : Json → String
  | .arr [] => "[]"
  | .arr xs =>
    "[\n" ++ String.intercalate ",\n" (stringifyPList (d + 1) xs) ++ "\n" ++ indentStr d ++ "]"
  | .obj [] => "\x7b\x7d"
  | .obj fs =>
    "\x7b\n" ++ String.intercalate ",\n" (stringifyPFields (d + 1) fs) ++ "\n" ++ indentStr d ++ "\x7d"
  | j => stringifyC j

def stringifyPList (d : Nat) : List Json → List String
  | [] => []
  | x :: xs => (indentStr d ++ stringifyP d x) :: stringifyPList d xs

def stringifyPFields (d : Nat) : List (String × Json) → List String
  | [] => []
  | f :: fs => (indentStr d ++ jsonQuote f.1 ++ ": " ++ stringifyP d f.2) :: stringifyPFields d fs

end

/-- Process-wide configuration read once at startup: CLOUD_AGENT_API_KEY
(empty string when unset, matching the source default), the base URL after
trailing-slash stripping, and the package version used in the User-Agent
header (read from package.json, outside src). -/
structure Config where
  apiKey : String
  baseUrl : String
  version : String

/-- Strip one trailing slash, the effect of .replace with the anchored
slash pattern in the source. -/
def stripTrailingSlash (s : String) : String :=
  if s.data.getLast? = some '/' then String.mk s.data.dropLast else s

/-- BASE_URL computation: the CLOUD_AGENT_URL environment value when
truthy (non-empty), else the fixed production host, then one trailing
slash stripped. -/
def mkBaseUrl (env : String) : String :=
  stripTrailingSlash (if env = "" then "https://cloudagent.metaltorque.dev" else env)

/-- Scheme of a URL string, lowercased, as new URL(u).protocol without the
colon: the characters before the first colon. -/
def urlScheme (url : String) : String :=
  String.mk ((url.data.takeWhile (fun c => c ≠ ':')).map Char.toLower)

/-- MAX_RESPONSE_SIZE from the source: 5 MiB. -/
def MAX_RESPONSE_SIZE : Nat := 5 * 1024 * 1024

/-- The data-event loop of the response stream: for each arriving chunk the
running size is increased by the chunk length; the moment it exceeds the
ceiling the request is destroyed and the remaining chunks are never
observed (a destroyed Node stream emits no further data events), and the
exceeding chunk itself is not appended.  Returns the accumulated text and
whether the stream was aborted.  Chunk lengths model byte lengths; the
claims only involve single-byte characters, for which String.length
coincides. -/
def streamChunks : List String → String → Nat → String × Bool
  | [], data, _ => (data, false)
  | c :: rest, data, size =>
    if size + c.length > MAX_RESPONSE_SIZE then (data, true)
    else streamChunks rest (data ++ c) (size + c.length)

/-- Total length of a chunk list. -/
def sumLen (chunks : List String) : Nat :=
  (chunks.map String.length).sum

/-- First n characters of a string, the effect of .slice(0, n) on the
strings involved here. -/
def sliceChars (s : String) (n : Nat) : String :=
  String.mk (s.data.take n)

/-- Classified failure of one transport exchange.  Each constructor
corresponds to one reject site in the request function of src/index.js;
the fixed messages live in RequestFailure.message. -/
inductive RequestFailure where
  | security : RequestFailure
  | oversizedResponse : RequestFailure
  | httpError : String → RequestFailure
  | timeout : RequestFailure
  | networkError : String → RequestFailure

/-- The message carried by the Error value at each reject site. -/
def RequestFailure.message : RequestFailure → String
  | .security => "Refusing to send API key over insecure HTTP. Use HTTPS."
  | .oversizedResponse => "Response too large"
  | .httpError m => m
  | .timeout => "Request timed out"
  | .networkError m => m

/-- What a successful exchange resolves with: the parsed JSON value, or
the raw accumulated text when parsing failed on a non-error status. -/
inductive Payload where
  | json : Json → Payload
  | text : String → Payload

/-- The possible event courses of one exchange, abstracting the Node
request object: a complete response with a status code and a list of data
chunks, a timeout firing after some chunks arrived and before the end
event (any chunks the remote would have sent later are listed separately
and, per Node semantics for a destroyed request, never observed), or a
request-level network error. -/
inductive RemoteBehavior where
  | respond : Nat → List String → RemoteBehavior
  | timeoutFires : List String → List String → RemoteBehavior
  | netError : String → RemoteBehavior

/-- The end-event handler of the request function: JSON.parse the
accumulated text inside try.  On parse success with an error status the
code evaluates json.error; for a parsed null this property access throws
and control reaches the catch block, which re-checks the status.  On
parse success with a non-error status the parsed value resolves before
any property access.  In the catch block an error status rejects with the
status and the first 300 characters of the raw body, and a non-error
status resolves with the raw text. -/
def handleEnd (status : Nat) (data : String) : Except RequestFailure Payload :=
  match parseJson data with
  | some j =>
    if status ≥ 400 then
      match j with
      | .null => .error (.httpError ("HTTP " ++ toString status ++ ": " ++ sliceChars data 300))
      | _ =>
        .error (.httpError
          (match j.getField "error" with
           | some v => if jsTruthy v then jsToString v else "HTTP " ++ toString status
           | none => "HTTP " ++ toString status))
    else .ok (.json j)
  | none =>
    if status ≥ 400 then .error (.httpError ("HTTP " ++ toString status ++ ": " ++ sliceChars data 300))
    else .ok (.text data)

/-- A JS value appearing in a request body object: either undefined (an
optional argument that was not supplied) or a JSON value.  JSON.stringify
omits object properties whose value is undefined. -/
inductive JsVal where
  | undefined : JsVal
  | val : Json → JsVal

/-- The JSON value a body object serializes as: undefined-valued
properties are dropped. -/
def jsObj (fs : List (String × JsVal)) : Json :=
  .obj (fs.filterMap (fun p =>
    match p.2 with
    | .undefined => none
    | .val j => some (p.1, j)))

/-- Observable actions and outcome of one call to the request function:
whether mod.request was invoked (any connection attempt), whether
req.destroy was called, the headers of the constructed request (empty
when none was constructed), the serialized body written (none when no
body), and the settled promise value. -/
structure RequestTrace where
  connectionAttempted : Bool
  destroyed : Bool
  headers : List (String × String)
  written : Option String
  result : Except RequestFailure Payload

/-- Embedding of the request function of src/index.js.  The security
check precedes header and option construction and any use of the http or
https module; the scheme-appropriate client choice itself is immaterial
to the outcome and is not traced.  The timeout argument does not affect
the outcome (when the timer fires is part of RemoteBehavior) and is kept
only for shape. -/
def request (cfg : Config) (method urlPath : String)
    (body : Option (List (String × JsVal)))
    (behavior : RemoteBehavior) (_timeout : Nat := 600000) : RequestTrace :=
  let fullUrl := cfg.baseUrl ++ urlPath
  if urlScheme fullUrl ≠ "https" ∧ cfg.apiKey ≠ "" then
    ⟨false, false, [], none, .error .security⟩
  else
    let headers :=
      [("Content-Type", "application/json"),
       ("User-Agent", "mcp-server-cloud-agent/" ++ cfg.version)]
      ++ (if cfg.apiKey ≠ "" then [("Authorization", "Bearer " ++ cfg.apiKey)] else [])
    let written := body.map (fun b => stringifyC (jsObj b))
    match behavior with
    | .netError msg => ⟨true, false, headers, written, .error (.networkError msg)⟩
    | .timeoutFires pre _post =>
      let s := streamChunks pre "" 0
      if s.2 then ⟨true, true, headers, written, .error .oversizedResponse⟩
      else ⟨true, true, headers, written, .error .timeout⟩
    | .respond status chunks =>
      let s := streamChunks chunks "" 0
      if s.2 then ⟨true, true, headers, written, .error .oversizedResponse⟩
      else ⟨true, false, headers, written, handleEnd status s.1⟩

/-- Characters encodeURIComponent leaves unescaped: ASCII alphanumerics
and the unreserved marks. -/
def isUnreservedURI (c : Char) : Bool :=
  c.isAlphanum || c = '-' || c = '_' || c = '.' || c = '!' || c = '~' || c = '*' || c = '\x27' || c = '(' || c = ')'

/-- UTF-8 bytes of a character. -/
def utf8Bytes (c : Char) : List Nat :=
  let n := c.toNat
  if n < 0x80 then [n]
  else if n < 0x800 then [0xc0 + n / 64, 0x80 + n % 64]
  else if n < 0x10000 then [0xe0 + n / 4096, 0x80 + (n / 64) % 64, 0x80 + n % 64]
  else [0xf0 + n / 262144, 0x80 + (n / 4096) % 64, 0x80 + (n / 64) % 64, 0x80 + n % 64]

/-- Uppercase hexadecimal digit, as used in percent escapes. -/
def hexDigitU (n : Nat) : Char :=
  if n < 10 then Char.ofNat (48 + n) else Char.ofNat (55 + n)

/-- Percent escape of one byte. -/
def pctByteList (b : Nat) : List Char :=
  ['%', hexDigitU (b / 16), hexDigitU (b % 16)]

/-- Encoding of one character under encodeURIComponent. -/
def encCharList (c : Char) : List Char :=
  if isUnreservedURI c then [c] else ((utf8Bytes c).map pctByteList).flatten

/-- Model of the encodeURIComponent builtin: unreserved characters pass
through, every other character is percent-encoded bytewise in UTF-8 with
uppercase hex digits. -/
def encodeURIComponent (s : String) : String :=
  String.mk ((s.data.map encCharList).flatten)

/-- The fixed no-credential failure text returned by noKeyError in
src/index.js (the content text of the single text item). -/
def noKeyErrorText : String :=
  "Error: CLOUD_AGENT_API_KEY environment variable is required.\n\nGet an API key from your Cloud Agent web workspace at /auth/api-key.\nAPI keys use the ca_* prefix."

/-- The V8 TypeError message raised by a property read on null, reaching
the catch block of a handler when the transport resolves with JSON null. -/
def nullReadMsg (k : String) : String :=
  "Cannot read properties of null (reading \x27" ++ k ++ "\x27)"

/-- Route and body of one delegation to the request function. -/
structure CallSpec where
  method : String
  urlPath : String
  body : Option (List (String × JsVal))

/-- Observable outcome of one tool invocation: the text of the single
content item returned to the caller, and, when the transport was
invoked, the call made together with its trace (none when the handler
returned before any call to request). -/
structure ToolResult where
  text : String
  call : Option (CallSpec × RequestTrace)

/-- Property read on a resolved payload, for non-null payloads: a field
of a parsed JSON object, undefined (none) for any other shape, including
a raw-text payload, whose string properties named here are undefined. -/
def Payload.getField : Payload → String → Option Json
  | .json j, k => j.getField k
  | .text _, _ => none

/-- JSON.stringify(result, null, 2) of a resolved payload: a raw-text
payload stringifies as a JSON string literal. -/
def stringifyPayloadP : Payload → String
  | .json j => stringifyP 0 j
  | .text s => stringifyP 0 (.str s)

/-- Body value of an optional string argument: undefined when absent. -/
def optStrVal : Option String → JsVal
  | some s => .val (.str s)
  | none => .undefined

/-- Body value of an optional payload field: undefined when absent. -/
def optVal : Option Json → JsVal
  | some j => .val j
  | none => .undefined

/-- The pr_url projection, result.pr_url with a null fallback via the JS
or-operator: a missing or falsy field becomes null. -/
def jsOrNullJ : Option Json → Json
  | some v => if jsTruthy v then v else .null
  | none => .null

/-- JS or-operator on two possibly-undefined strings, file or feature in
generate_tests: the first operand when truthy, else the second. -/
def jsOr2 (a b : Option String) : Option String :=
  match a with
  | some s => if s = "" then b else some s
  | none => b

/-- Truthiness of a possibly-undefined string. -/
def jsTruthyStr : Option String → Bool
  | some s => s ≠ ""
  | none => false

/-- JS or-operator with a string default, type or all in security_scan. -/
def jsOrStr (a : Option String) (d : String) : String :=
  match a with
  | some s => if s = "" then d else s
  | none => d

/-- JS or-operator with a numeric default, limit or 20 in list_sessions. -/
def jsOrNat (a : Option Nat) (d : Nat) : Nat :=
  match a with
  | some n => if n = 0 then d else n
  | none => d

/-- The run_task and generate_tests success projection: stringify the
object with response, cost_usd, duration_ms and pr_url-or-null fields;
on a null payload the first field read throws and the catch block
formats the TypeError message. -/
def taskResultText (p : Payload) : String :=
  match p with
  | .json .null => "Error: " ++ nullReadMsg "response"
  | _ =>
    stringifyP 0 (jsObj
      [("response", optVal (p.getField "response")),
       ("cost_usd", optVal (p.getField "cost_usd")),
       ("duration_ms", optVal (p.getField "duration_ms")),
       ("pr_url", .val (jsOrNullJ (p.getField "pr_url")))])

/-- Tool run_task: gate on the credential, POST /query with the prompt,
then format the result or the caught failure message. -/
def run_task (cfg : Config) (behavior : RemoteBehavior) (prompt : String) : ToolResult :=
  if cfg.apiKey = "" then ⟨noKeyErrorText, none⟩
  else
    let spec : CallSpec := ⟨"POST", "/query", some [("prompt", .val (.str prompt))]⟩
    let tr := request cfg spec.method spec.urlPath spec.body behavior
    match tr.result with
    | .error f => ⟨"Error: " ++ f.message, some (spec, tr)⟩
    | .ok p => ⟨taskResultText p, some (spec, tr)⟩

/-- The review_pr and ask_codebase success projection: a truthy named
field verbatim, else the pretty-printed whole payload; a null payload
throws on the field read. -/
def namedFieldText (name : String) (p : Payload) : String :=
  match p with
  | .json .null => "Error: " ++ nullReadMsg name
  | _ =>
    match p.getField name with
    | some v => if jsTruthy v then jsToString v else stringifyPayloadP p
    | none => stringifyPayloadP p

/-- Tool review_pr: POST /review with pr_url and post_review, the latter
true exactly when post_comments is strictly true. -/
def review_pr (cfg : Config) (behavior : RemoteBehavior) (pr_url : String)
    (post_comments : Option Bool) : ToolResult :=
  if cfg.apiKey = "" then ⟨noKeyErrorText, none⟩
  else
    let spec : CallSpec :=
      ⟨"POST", "/review",
       some [("pr_url", .val (.str pr_url)),
             ("post_review", .val (.bool (post_comments == some true)))]⟩
    let tr := request cfg spec.method spec.urlPath spec.body behavior
    match tr.result with
    | .error f => ⟨"Error: " ++ f.message, some (spec, tr)⟩
    | .ok p => ⟨namedFieldText "review" p, some (spec, tr)⟩

/-- Tool ask_codebase: POST /ask with question and repo. -/
def ask_codebase (cfg : Config) (behavior : RemoteBehavior) (question repo : String) : ToolResult :=
  if cfg.apiKey = "" then ⟨noKeyErrorText, none⟩
  else
    let spec : CallSpec :=
      ⟨"POST", "/ask", some [("question", .val (.str question)), ("repo", .val (.str repo))]⟩
    let tr := request cfg spec.method spec.urlPath spec.body behavior
    match tr.result with
    | .error f => ⟨"Error: " ++ f.message, some (spec, tr)⟩
    | .ok p => ⟨namedFieldText "answer" p, some (spec, tr)⟩

/-- Tool generate_tests: gate on the credential, then require file or
feature to be truthy (the JS or of the two optional strings), then POST
/test with file, feature and repo. -/
def generate_tests (cfg : Config) (behavior : RemoteBehavior) (repo : String)
    (file feature : Option String) : ToolResult :=
  if cfg.apiKey = "" then ⟨noKeyErrorText, none⟩
  else if !jsTruthyStr (jsOr2 file feature) then
    ⟨"Error: Provide either \x27file\x27 or \x27feature\x27 to test.", none⟩
  else
    let spec : CallSpec :=
      ⟨"POST", "/test",
       some [("file", optStrVal file), ("feature", optStrVal feature),
             ("repo", .val (.str repo))]⟩
    let tr := request cfg spec.method spec.urlPath spec.body behavior
    match tr.result with
    | .error f => ⟨"Error: " ++ f.message, some (spec, tr)⟩
    | .ok p => ⟨taskResultText p, some (spec, tr)⟩

/-- Tool security_scan: POST /scan with the repo list and the scan type
defaulted to all. -/
def security_scan (cfg : Config) (behavior : RemoteBehavior) (repos : List String)
    (type : Option String) : ToolResult :=
  if cfg.apiKey = "" then ⟨noKeyErrorText, none⟩
  else
    let spec : CallSpec :=
      ⟨"POST", "/scan",
       some [("repos", .val (.arr (repos.map Json.str))),
             ("type", .val (.str (jsOrStr type "all")))]⟩
    let tr := request cfg spec.method spec.urlPath spec.body behavior
    match tr.result with
    | .error f => ⟨"Error: " ++ f.message, some (spec, tr)⟩
    | .ok p => ⟨stringifyPayloadP p, some (spec, tr)⟩

/-- Tool list_sessions: GET /api/sessions with a limit query defaulted to
20 and an optional status filter appended when truthy; the success
projection prefers the sessions field, falling back to the whole payload,
and throws on a null payload. -/
def list_sessions (cfg : Config) (behavior : RemoteBehavior) (limit : Option Nat)
    (status : Option String) : ToolResult :=
  if cfg.apiKey = "" then ⟨noKeyErrorText, none⟩
  else
    let path := "/api/sessions?limit=" ++ toString (jsOrNat limit 20)
      ++ (match status with
          | some s => if s ≠ "" then "&status=" ++ s else ""
          | none => "")
    let spec : CallSpec := ⟨"GET", path, none⟩
    let tr := request cfg spec.method spec.urlPath spec.body behavior
    match tr.result with
    | .error f => ⟨"Error: " ++ f.message, some (spec, tr)⟩
    | .ok p =>
      match p with
      | .json .null => ⟨"Error: " ++ nullReadMsg "sessions", some (spec, tr)⟩
      | _ =>
        match p.getField "sessions" with
        | some v =>
          if jsTruthy v then ⟨stringifyP 0 v, some (spec, tr)⟩
          else ⟨stringifyPayloadP p, some (spec, tr)⟩
        | none => ⟨stringifyPayloadP p, some (spec, tr)⟩

/-- Tool list_playbooks: GET /api/playbooks. -/
def list_playbooks (cfg : Config) (behavior : RemoteBehavior) : ToolResult :=
  if cfg.apiKey = "" then ⟨noKeyErrorText, none⟩
  else
    let spec : CallSpec := ⟨"GET", "/api/playbooks", none⟩
    let tr := request cfg spec.method spec.urlPath spec.body behavior
    match tr.result with
    | .error f => ⟨"Error: " ++ f.message, some (spec, tr)⟩
    | .ok p => ⟨stringifyPayloadP p, some (spec, tr)⟩

/-- Body value of the optional inputs record of run_playbook. -/
def inputsVal : Option (List (String × String)) → JsVal
  | none => .undefined
  | some m => .val (.obj (m.map (fun p => (p.1, Json.str p.2))))

/-- Tool run_playbook: POST to the playbook run route with the slug
percent-encoded into the path, body carrying repo and the optional
inputs. -/
def run_playbook (cfg : Config) (behavior : RemoteBehavior) (slug repo : String)
    (inputs : Option (List (String × String))) : ToolResult :=
  if cfg.apiKey = "" then ⟨noKeyErrorText, none⟩
  else
    let spec : CallSpec :=
      ⟨"POST", "/api/playbooks/" ++ encodeURIComponent slug ++ "/run",
       some [("repo", .val (.str repo)), ("inputs", inputsVal inputs)]⟩
    let tr := request cfg spec.method spec.urlPath spec.body behavior
    match tr.result with
    | .error f => ⟨"Error: " ++ f.message, some (spec, tr)⟩
    | .ok p => ⟨stringifyPayloadP p, some (spec, tr)⟩

/-- Tool get_usage: GET /api/usage, with a days query only when days is
truthy. -/
def get_usage (cfg : Config) (behavior : RemoteBehavior) (days : Option Nat) : ToolResult :=
  if cfg.apiKey = "" then ⟨noKeyErrorText, none⟩
  else
    let path :=
      match days with
      | some n => if n ≠ 0 then "/api/usage?days=" ++ toString n else "/api/usage"
      | none => "/api/usage"
    let spec : CallSpec := ⟨"GET", path, none⟩
    let tr := request cfg spec.method spec.urlPath spec.body behavior
    match tr.result with
    | .error f => ⟨"Error: " ++ f.message, some (spec, tr)⟩
    | .ok p => ⟨stringifyPayloadP p, some (spec, tr)⟩

/-- The text a completed stream accumulates when never aborted. -/
def concatChunks (chunks : List String) : String :=
  chunks.foldl (fun a c => a ++ c) ""

theorem streamChunks_complete (chunks : List String) : ∀ (data : String) (size : Nat),
    size = data.length → size + sumLen chunks ≤ MAX_RESPONSE_SIZE →
    streamChunks chunks data size = (chunks.foldl (fun a c => a ++ c) data, false) := by
  induction chunks with
  | nil => intro data size _ _; simp [streamChunks]
  | cons c rest ih =>
    intro data size h1 h2
    have hlen : sumLen (c :: rest) = c.length + sumLen rest := by simp [sumLen]
    rw [streamChunks, if_neg (by omega), List.foldl_cons]
    exact ih (data ++ c) (size + c.length) (by rw [h1, String.length_append]) (by omega)

theorem streamChunks_aborts (chunks : List String) : ∀ (data : String) (size : Nat),
    size ≤ MAX_RESPONSE_SIZE → MAX_RESPONSE_SIZE < size + sumLen chunks →
    (streamChunks chunks data size).2 = true := by
  induction chunks with
  | nil => intro data size h1 h2; simp [sumLen] at h2; omega
  | cons c rest ih =>
    intro data size h1 h2
    have hlen : sumLen (c :: rest) = c.length + sumLen rest := by simp [sumLen]
    rw [streamChunks]
    by_cases hc : size + c.length > MAX_RESPONSE_SIZE
    · rw [if_pos hc]
    · rw [if_neg hc]
      exact ih (data ++ c) (size + c.length) (by omega) (by omega)

theorem streamChunks_len_le (chunks : List String) : ∀ (data : String) (size : Nat),
    size = data.length → size ≤ MAX_RESPONSE_SIZE →
    (streamChunks chunks data size).1.length ≤ MAX_RESPONSE_SIZE := by
  induction chunks with
  | nil => intro data size h1 h2; simpa [streamChunks] using h1 ▸ h2
  | cons c rest ih =>
    intro data size h1 h2
    rw [streamChunks]
    by_cases hc : size + c.length > MAX_RESPONSE_SIZE
    · rw [if_pos hc]; exact h1 ▸ h2
    · rw [if_neg hc]
      exact ih (data ++ c) (size + c.length) (by rw [h1, String.length_append]) (by omega)

theorem request_gate_open (cfg : Config) (urlPath : String)
    (hgate : urlScheme (cfg.baseUrl ++ urlPath) = "https" ∨ cfg.apiKey = "") :
    ¬(urlScheme (cfg.baseUrl ++ urlPath) ≠ "https" ∧ cfg.apiKey ≠ "") := by
  rcases hgate with h | h <;> simp [h]

theorem request_respond_result (cfg : Config) (method urlPath : String)
    (body : Option (List (String × JsVal))) (status : Nat) (chunks : List String)
    (hgate : urlScheme (cfg.baseUrl ++ urlPath) = "https" ∨ cfg.apiKey = "")
    (hsz : sumLen chunks ≤ MAX_RESPONSE_SIZE) :
    (request cfg method urlPath body (.respond status chunks)).result =
      handleEnd status (concatChunks chunks) := by
  rw [request, if_neg (request_gate_open cfg urlPath hgate)]
  have hs : streamChunks chunks "" 0 = (concatChunks chunks, false) :=
    streamChunks_complete chunks "" 0 rfl (by simpa using hsz)
  simp [hs]

/-- A concrete configured credential and the default base URL, used by
concrete instances below. -/
def cfg0 : Config := ⟨"ca_test", mkBaseUrl "", "1.0.0"⟩

/-- C1: for every call to the transport function with a credential
configured and a resolved URL scheme that is not HTTPS, the call fails
with the Security failure, message Refusing to send API key over
insecure HTTP. Use HTTPS., and performs no network I/O: the trace shows
no connection attempt, no destroy, no headers and no body written, so no
request is constructed or sent. -/
theorem insecure_scheme_rejected_before_io
    (cfg : Config) (method urlPath : String) (body : Option (List (String × JsVal)))
    (behavior : RemoteBehavior)
    (hkey : cfg.apiKey ≠ "") (hscheme : urlScheme (cfg.baseUrl ++ urlPath) ≠ "https") :
    request cfg method urlPath body behavior =
      ⟨false, false, [], none, .error .security⟩ ∧
    RequestFailure.security.message =
      "Refusing to send API key over insecure HTTP. Use HTTPS." := by
  constructor
  · rw [request, if_pos ⟨hscheme, hkey⟩]
  · rfl

/-- Witness for C1 at a concrete plain-HTTP base URL with a configured key. -/
theorem insecure_scheme_rejected_before_io_witness :
    (Config.mk "ca_key" "http://insecure.example" "1.0.0").apiKey ≠ "" ∧
    urlScheme ((Config.mk "ca_key" "http://insecure.example" "1.0.0").baseUrl ++ "/query") ≠ "https" ∧
    request (Config.mk "ca_key" "http://insecure.example" "1.0.0") "POST" "/query" none
        (.respond 200 ["ok"]) =
      ⟨false, false, [], none, .error .security⟩ :=
  ⟨by decide, by decide,
   (insecure_scheme_rejected_before_io _ "POST" "/query" none _ (by decide) (by decide)).1⟩

/-- C2: with no credential configured, every one of the nine tools
returns the fixed MissingCredential failure text and records no call to
the transport function, so no network connection is attempted. -/
theorem missing_credential_gates_every_tool
    (cfg : Config) (behavior : RemoteBehavior) (hkey : cfg.apiKey = "") :
    (∀ prompt, run_task cfg behavior prompt = ⟨noKeyErrorText, none⟩) ∧
    (∀ pr_url pc, review_pr cfg behavior pr_url pc = ⟨noKeyErrorText, none⟩) ∧
    (∀ q r, ask_codebase cfg behavior q r = ⟨noKeyErrorText, none⟩) ∧
    (∀ r f ft, generate_tests cfg behavior r f ft = ⟨noKeyErrorText, none⟩) ∧
    (∀ rs t, security_scan cfg behavior rs t = ⟨noKeyErrorText, none⟩) ∧
    (∀ l s, list_sessions cfg behavior l s = ⟨noKeyErrorText, none⟩) ∧
    (list_playbooks cfg behavior = ⟨noKeyErrorText, none⟩) ∧
    (∀ sl r i, run_playbook cfg behavior sl r i = ⟨noKeyErrorText, none⟩) ∧
    (∀ d, get_usage cfg behavior d = ⟨noKeyErrorText, none⟩) := by
  refine ⟨fun _ => ?_, fun _ _ => ?_, fun _ _ => ?_, fun _ _ _ => ?_, fun _ _ => ?_,
          fun _ _ => ?_, ?_, fun _ _ _ => ?_, fun _ => ?_⟩ <;>
    simp [run_task, review_pr, ask_codebase, generate_tests, security_scan,
          list_sessions, list_playbooks, run_playbook, get_usage, hkey]

/-- Witness for C2 at the empty credential on one tool of each arity shape. -/
theorem missing_credential_gates_every_tool_witness :
    run_task ⟨"", mkBaseUrl "", "1.0.0"⟩ (.respond 200 ["ok"]) "fix a bug" =
      ⟨noKeyErrorText, none⟩ ∧
    list_playbooks ⟨"", mkBaseUrl "", "1.0.0"⟩ (.respond 200 ["ok"]) =
      ⟨noKeyErrorText, none⟩ :=
  ⟨(missing_credential_gates_every_tool _ _ rfl).1 "fix a bug",
   (missing_credential_gates_every_tool ⟨"", mkBaseUrl "", "1.0.0"⟩ (.respond 200 ["ok"]) rfl).2.2.2.2.2.2.1⟩

/-- C3: the size ceiling is enforced as chunks arrive: whenever the total
chunk length exceeds 5242880 bytes the request is destroyed, the call
fails with the OversizedResponse failure, message Response too large,
regardless of the eventual total size, and the accumulated buffer never
exceeds the ceiling, since the exceeding chunk is not appended. -/
theorem oversize_response_aborted
    (cfg : Config) (method urlPath : String) (body : Option (List (String × JsVal)))
    (status : Nat) (chunks : List String)
    (hgate : urlScheme (cfg.baseUrl ++ urlPath) = "https" ∨ cfg.apiKey = "")
    (hover : MAX_RESPONSE_SIZE < sumLen chunks) :
    (request cfg method urlPath body (.respond status chunks)).destroyed = true ∧
    (request cfg method urlPath body (.respond status chunks)).result =
      .error .oversizedResponse ∧
    RequestFailure.oversizedResponse.message = "Response too large" ∧
    (streamChunks chunks "" 0).1.length ≤ MAX_RESPONSE_SIZE := by
  have hab : (streamChunks chunks "" 0).2 = true :=
    streamChunks_aborts chunks "" 0 (by simp [MAX_RESPONSE_SIZE]) (by simpa using hover)
  rw [request, if_neg (request_gate_open cfg urlPath hgate)]
  refine ⟨?_, ?_, rfl, streamChunks_len_le chunks "" 0 rfl (by simp [MAX_RESPONSE_SIZE])⟩ <;>
    simp [hab]

/-- A one-mebibyte response chunk. -/
def mebibyteChunk : String := String.mk (List.replicate 1048576 'x')

/-- Witness for C3: six one-mebibyte chunks exceed the ceiling. -/
theorem oversize_response_aborted_witness :
    MAX_RESPONSE_SIZE < sumLen (List.replicate 6 mebibyteChunk) ∧
    (request cfg0 "POST" "/query" none
        (.respond 200 (List.replicate 6 mebibyteChunk))).result =
      .error .oversizedResponse := by
  have h1 : mebibyteChunk.length = 1048576 := by
    rw [show mebibyteChunk = String.mk (List.replicate 1048576 'x') from rfl,
        String.length_mk, List.length_replicate]
  have hlen : sumLen (List.replicate 6 mebibyteChunk) = 6 * 1048576 := by
    show (List.map String.length (List.replicate 6 mebibyteChunk)).sum = 6 * 1048576
    rw [List.map_replicate, h1, List.sum_replicate, smul_eq_mul]
  constructor
  · rw [hlen]; norm_num [MAX_RESPONSE_SIZE]
  · exact (oversize_response_aborted cfg0 "POST" "/query" none 200 _
      (Or.inl (by decide)) (by rw [hlen]; norm_num [MAX_RESPONSE_SIZE])).2.1

/-- Counterexample for C4 as stated: the body null parses as JSON and has
no error field, so the claim requires the generic message HTTP 400, but
the property read json.error on the parsed null throws, control reaches
the catch block, and the message is HTTP 400: null. -/
theorem json_error_null_body_counterexample :
    parseJson "null" = some Json.null ∧
    Json.getField Json.null "error" = none ∧
    (request cfg0 "POST" "/query" none (.respond 400 ["null"])).result =
      .error (.httpError "HTTP 400: null") ∧
    ("HTTP 400: null" : String) ≠ "HTTP 400" :=
  ⟨rfl, rfl, rfl, by decide⟩

/-- C4 as amended: for every completed response whose body parses as JSON
to a value other than null and whose status code is at least 400, the
call fails with an HttpError whose message is the error field of the
parsed body when present and truthy, and otherwise the generic message
HTTP code.  For a body parsing to null the property read throws and the
non-JSON error branch applies instead. -/
theorem json_error_status_message
    (cfg : Config) (method urlPath : String) (body : Option (List (String × JsVal)))
    (status : Nat) (chunks : List String) (j : Json)
    (hgate : urlScheme (cfg.baseUrl ++ urlPath) = "https" ∨ cfg.apiKey = "")
    (hsz : sumLen chunks ≤ MAX_RESPONSE_SIZE)
    (hparse : parseJson (concatChunks chunks) = some j)
    (hnn : j ≠ Json.null) (hstatus : 400 ≤ status) :
    (request cfg method urlPath body (.respond status chunks)).result =
      .error (.httpError
        (match j.getField "error" with
         | some v => if jsTruthy v then jsToString v else "HTTP " ++ toString status
         | none => "HTTP " ++ toString status)) := by
  rw [request_respond_result cfg method urlPath body status chunks hgate hsz]
  unfold handleEnd
  rw [hparse]
  simp only [ge_iff_le, hstatus, if_true]

/-- Witness for C4 as amended: a status 400 response with an Unauthorized
error field yields exactly the message Unauthorized. -/
theorem json_error_status_message_witness :
    (request cfg0 "POST" "/review" none
        (.respond 400 ["\x7b\x22error\x22:\x22Unauthorized\x22\x7d"])).result =
      .error (.httpError "Unauthorized") := by
  have h := json_error_status_message cfg0 "POST" "/review" none 400
    ["\x7b\x22error\x22:\x22Unauthorized\x22\x7d"]
    (Json.obj [("error", Json.str "Unauthorized")])
    (Or.inl (by decide)) (by decide) rfl (by simp) (by norm_num)
  exact h.trans rfl

/-- The thousand-character non-JSON body of the C5 instance. -/
def thousandXs : String := String.mk (List.replicate 1000 'x')

/-- C5: for every completed response whose body does not parse as JSON
and whose status code is at least 400, the call fails with an HttpError
whose message is HTTP code, a colon and a space, then at most the first
300 characters of the raw body. -/
theorem nonjson_error_status_truncated
    (cfg : Config) (method urlPath : String) (body : Option (List (String × JsVal)))
    (status : Nat) (chunks : List String)
    (hgate : urlScheme (cfg.baseUrl ++ urlPath) = "https" ∨ cfg.apiKey = "")
    (hsz : sumLen chunks ≤ MAX_RESPONSE_SIZE)
    (hparse : parseJson (concatChunks chunks) = none)
    (hstatus : 400 ≤ status) :
    (request cfg method urlPath body (.respond status chunks)).result =
      .error (.httpError
        ("HTTP " ++ toString status ++ ": " ++ sliceChars (concatChunks chunks) 300)) := by
  rw [request_respond_result cfg method urlPath body status chunks hgate hsz]
  unfold handleEnd
  rw [hparse]
  simp only [ge_iff_le, hstatus, if_true]

/-- Witness for C5: a 1000-character non-JSON body at status 500 yields
HTTP 500, colon, space, then exactly the first 300 characters. -/
theorem nonjson_error_status_truncated_witness :
    parseJson thousandXs = none ∧
    (request cfg0 "POST" "/scan" none (.respond 500 [thousandXs])).result =
      .error (.httpError ("HTTP 500: " ++ String.mk (List.replicate 300 'x'))) := by
  refine ⟨rfl, ?_⟩
  have h := nonjson_error_status_truncated cfg0 "POST" "/scan" none 500 [thousandXs]
    (Or.inl (by decide)) (by decide) rfl (by norm_num)
  exact h.trans rfl

/-- C6: for every completed response whose body does not parse as JSON
and whose status code is below 400, the call succeeds and the Success
payload is exactly the raw accumulated text. -/
theorem nonjson_success_raw_text
    (cfg : Config) (method urlPath : String) (body : Option (List (String × JsVal)))
    (status : Nat) (chunks : List String)
    (hgate : urlScheme (cfg.baseUrl ++ urlPath) = "https" ∨ cfg.apiKey = "")
    (hsz : sumLen chunks ≤ MAX_RESPONSE_SIZE)
    (hparse : parseJson (concatChunks chunks) = none)
    (hstatus : status < 400) :
    (request cfg method urlPath body (.respond status chunks)).result =
      .ok (.text (concatChunks chunks)) := by
  rw [request_respond_result cfg method urlPath body status chunks hgate hsz]
  unfold handleEnd
  rw [hparse, if_neg (by omega)]

/-- Witness for C6: a 200 response with the body plain text succeeds with
that very text as the payload. -/
theorem nonjson_success_raw_text_witness :
    parseJson "plain text" = none ∧
    (request cfg0 "GET" "/api/playbooks" none (.respond 200 ["plain text"])).result =
      .ok (.text "plain text") := by
  refine ⟨rfl, ?_⟩
  have h := nonjson_success_raw_text cfg0 "GET" "/api/playbooks" none 200 ["plain text"]
    (Or.inl (by decide)) (by decide) rfl (by norm_num)
  exact h.trans rfl

/-- C7: when the timeout fires before the response completes, the request
is destroyed and the call fails with the Timeout failure, message Request
timed out; chunks the remote would have delivered later are never
processed, so the trace does not depend on them. -/
theorem timeout_aborts_call
    (cfg : Config) (method urlPath : String) (body : Option (List (String × JsVal)))
    (pre post : List String)
    (hgate : urlScheme (cfg.baseUrl ++ urlPath) = "https" ∨ cfg.apiKey = "")
    (hnoabort : (streamChunks pre "" 0).2 = false) :
    request cfg method urlPath body (.timeoutFires pre post) =
      request cfg method urlPath body (.timeoutFires pre []) ∧
    (request cfg method urlPath body (.timeoutFires pre post)).result = .error .timeout ∧
    (request cfg method urlPath body (.timeoutFires pre post)).destroyed = true ∧
    RequestFailure.timeout.message = "Request timed out" := by
  refine ⟨rfl, ?_, ?_, rfl⟩ <;>
    rw [request, if_neg (request_gate_open cfg urlPath hgate)] <;>
    simp [hnoabort]

/-- Witness for C7: a timeout firing after one small chunk, with data the
remote would have sent later, yields the Timeout failure. -/
theorem timeout_aborts_call_witness :
    (streamChunks ["partial"] "" 0).2 = false ∧
    (request cfg0 "POST" "/query" none (.timeoutFires ["partial"] ["late data"])).result =
      .error .timeout := by
  refine ⟨by decide, ?_⟩
  exact (timeout_aborts_call cfg0 "POST" "/query" none ["partial"] ["late data"]
    (Or.inl (by decide)) (by decide)).2.1

theorem char_toNat_lt (c : Char) : c.toNat < 1114112 := by
  rcases c.valid with h | h
  · exact Nat.lt_trans h (by norm_num)
  · exact h.2

theorem utf8Bytes_lt (c : Char) : ∀ b ∈ utf8Bytes c, b < 256 := by
  have h := char_toNat_lt c
  intro b hb
  unfold utf8Bytes at hb
  simp only at hb
  split_ifs at hb with h1 h2 h3
  · simp only [List.mem_singleton] at hb; omega
  · simp only [List.mem_cons, List.mem_singleton, List.not_mem_nil, or_false] at hb
    rcases hb with rfl | rfl <;> omega
  · simp only [List.mem_cons, List.mem_singleton, List.not_mem_nil, or_false] at hb
    rcases hb with rfl | rfl | rfl <;> omega
  · simp only [List.mem_cons, List.mem_singleton, List.not_mem_nil, or_false] at hb
    rcases hb with rfl | rfl | rfl | rfl <;> omega

theorem hexDigitU_safe : ∀ n, n < 16 → hexDigitU n ≠ '/' ∧ hexDigitU n ≠ ' ' := by decide

theorem encCharList_safe (c c' : Char) (h : c' ∈ encCharList c) : c' ≠ '/' ∧ c' ≠ ' ' := by
  unfold encCharList at h
  by_cases hu : isUnreservedURI c
  · rw [if_pos hu] at h
    simp only [List.mem_singleton] at h
    subst h
    constructor <;> rintro rfl <;> revert hu <;> decide
  · rw [if_neg hu] at h
    rw [List.mem_flatten] at h
    obtain ⟨l, hl, hcl⟩ := h
    rw [List.mem_map] at hl
    obtain ⟨b, hb, rfl⟩ := hl
    have hblt : b < 256 := utf8Bytes_lt c b hb
    unfold pctByteList at hcl
    simp only [List.mem_cons, List.mem_singleton, List.not_mem_nil, or_false] at hcl
    rcases hcl with rfl | rfl | rfl
    · exact ⟨by decide, by decide⟩
    · exact hexDigitU_safe (b / 16) (by omega)
    · exact hexDigitU_safe (b % 16) (by omega)

/-- C8: every run_playbook invocation that reaches the transport builds
the route as the playbook prefix, the percent-encoded slug, then the run
suffix, and the encoded slug segment contains no literal slash and no
literal space, for any slug whatsoever. -/
theorem playbook_route_encoded
    (cfg : Config) (behavior : RemoteBehavior) (slug repo : String)
    (inputs : Option (List (String × String)))
    (hkey : cfg.apiKey ≠ "") :
    (run_playbook cfg behavior slug repo inputs).call =
      some (⟨"POST", "/api/playbooks/" ++ encodeURIComponent slug ++ "/run",
             some [("repo", .val (.str repo)), ("inputs", inputsVal inputs)]⟩,
            request cfg "POST" ("/api/playbooks/" ++ encodeURIComponent slug ++ "/run")
              (some [("repo", .val (.str repo)), ("inputs", inputsVal inputs)]) behavior) ∧
    ∀ c ∈ (encodeURIComponent slug).data, c ≠ '/' ∧ c ≠ ' ' := by
  constructor
  · rw [run_playbook, if_neg hkey]
    cases h : (request cfg "POST" ("/api/playbooks/" ++ encodeURIComponent slug ++ "/run")
        (some [("repo", .val (.str repo)), ("inputs", inputsVal inputs)]) behavior).result <;>
      simp [h]
  · intro c hc
    have : c ∈ (slug.data.map encCharList).flatten := hc
    rw [List.mem_flatten] at this
    obtain ⟨l, hl, hcl⟩ := this
    rw [List.mem_map] at hl
    obtain ⟨a, _, rfl⟩ := hl
    exact encCharList_safe a c hcl

/-- Witness for C8 at the slug my playbook slash v2, whose encoding
percent-escapes the space and the slash. -/
theorem playbook_route_encoded_witness :
    encodeURIComponent "my playbook/v2" = "my%20playbook%2Fv2" ∧
    (run_playbook cfg0 (.respond 200 ["\x7b\x7d"]) "my playbook/v2" "owner/repo" none).call =
      some (⟨"POST", "/api/playbooks/" ++ encodeURIComponent "my playbook/v2" ++ "/run",
             some [("repo", .val (.str "owner/repo")), ("inputs", inputsVal none)]⟩,
            request cfg0 "POST" ("/api/playbooks/" ++ encodeURIComponent "my playbook/v2" ++ "/run")
              (some [("repo", .val (.str "owner/repo")), ("inputs", inputsVal none)])
              (.respond 200 ["\x7b\x7d"])) := by
  refine ⟨by decide, ?_⟩
  exact (playbook_route_encoded cfg0 (.respond 200 ["\x7b\x7d"]) "my playbook/v2" "owner/repo"
    none (by decide)).1

/-- C9: a credential that is non-empty but all whitespace is truthy, so
the gate treats it as configured: run_task does not return the
missing-credential text but invokes the transport, and the credential is
carried unchanged in the Authorization header as Bearer followed by the
key. -/
theorem whitespace_credential_configured
    (key version prompt : String) (behavior : RemoteBehavior)
    (hne : key ≠ "") (hws : ∀ c ∈ key.data, c.isWhitespace) :
    (run_task ⟨key, mkBaseUrl "", version⟩ behavior prompt).call =
      some (⟨"POST", "/query", some [("prompt", .val (.str prompt))]⟩,
            request ⟨key, mkBaseUrl "", version⟩ "POST" "/query"
              (some [("prompt", .val (.str prompt))]) behavior) ∧
    ("Authorization", "Bearer " ++ key) ∈
      (request ⟨key, mkBaseUrl "", version⟩ "POST" "/query"
        (some [("prompt", .val (.str prompt))]) behavior).headers := by
  constructor
  · rw [run_task, if_neg hne]
    cases h : (request ⟨key, mkBaseUrl "", version⟩ "POST" "/query"
        (some [("prompt", .val (.str prompt))]) behavior).result <;>
      simp [h]
  · have hsch : urlScheme ((Config.mk key (mkBaseUrl "") version).baseUrl ++ "/query") = "https" := by
      show urlScheme (mkBaseUrl "" ++ "/query") = "https"
      decide
    rw [request, if_neg (request_gate_open ⟨key, mkBaseUrl "", version⟩ "/query" (Or.inl hsch))]
    cases behavior with
    | netError m => simp [hne]
    | timeoutFires pre post => simp [hne, apply_ite]
    | respond status chunks => simp [hne, apply_ite]

/-- Witness for C9 at the single-space credential. -/
theorem whitespace_credential_configured_witness :
    (" " : String) ≠ "" ∧
    ("Authorization", "Bearer " ++ " ") ∈
      (request ⟨" ", mkBaseUrl "", "1.0.0"⟩ "POST" "/query"
        (some [("prompt", .val (.str "do the task"))]) (.respond 200 ["\x7b\x7d"])).headers :=
  ⟨by decide,
   (whitespace_credential_configured " " "1.0.0" "do the task" (.respond 200 ["\x7b\x7d"])
     (by decide) (by decide)).2⟩

/-- Counterexample for C10 as stated: the file argument provided as the
empty string counts as provided, yet the JS or of file and feature is
falsy, so the handler returns the fixed error text and never calls the
transport. -/
theorem generate_tests_empty_file_counterexample :
    generate_tests cfg0 (.respond 200 ["\x7b\x7d"]) "owner/repo" (some "") none =
      ⟨"Error: Provide either \x27file\x27 or \x27feature\x27 to test.", none⟩ ∧
    (some "" : Option String) ≠ none :=
  ⟨rfl, by decide⟩

/-- C10 as amended: with a credential configured, generate_tests returns
the fixed error text and performs no transport call exactly when neither
file nor feature is supplied as a non-empty string, the truthiness test
the source applies to their JS or; when at least one of the two is a
non-empty string the transport is invoked once with the body carrying
file, feature and repo. -/
theorem generate_tests_requires_truthy_target
    (cfg : Config) (behavior : RemoteBehavior) (repo : String)
    (file feature : Option String) (hkey : cfg.apiKey ≠ "") :
    (jsTruthyStr (jsOr2 file feature) = true ↔
      (file.getD "" ≠ "" ∨ feature.getD "" ≠ "")) ∧
    (jsTruthyStr (jsOr2 file feature) = false →
      generate_tests cfg behavior repo file feature =
        ⟨"Error: Provide either \x27file\x27 or \x27feature\x27 to test.", none⟩) ∧
    (jsTruthyStr (jsOr2 file feature) = true →
      (generate_tests cfg behavior repo file feature).call =
        some (⟨"POST", "/test",
               some [("file", optStrVal file), ("feature", optStrVal feature),
                     ("repo", .val (.str repo))]⟩,
              request cfg "POST" "/test"
                (some [("file", optStrVal file), ("feature", optStrVal feature),
                       ("repo", .val (.str repo))]) behavior)) := by
  refine ⟨?_, ?_, ?_⟩
  · cases file with
    | none =>
      cases feature with
      | none => simp [jsOr2, jsTruthyStr]
      | some t => simp [jsOr2, jsTruthyStr]
    | some f =>
      cases feature with
      | none => by_cases hf : f = "" <;> simp [jsOr2, jsTruthyStr, hf]
      | some t => by_cases hf : f = "" <;> simp [jsOr2, jsTruthyStr, hf]
  · intro hfalse
    rw [generate_tests, if_neg hkey, if_pos (by simp [hfalse])]
  · intro htrue
    rw [generate_tests, if_neg hkey, if_neg (by simp [htrue])]
    cases h : (request cfg "POST" "/test"
        (some [("file", optStrVal file), ("feature", optStrVal feature),
               ("repo", .val (.str repo))]) behavior).result <;>
      simp [h]

/-- Witness for C10 as amended, on both sides: both arguments absent
yields the fixed error and no call, and a non-empty feature alone yields
a transport call with the full body. -/
theorem generate_tests_requires_truthy_target_witness :
    generate_tests cfg0 (.respond 200 ["\x7b\x7d"]) "owner/repo" none none =
      ⟨"Error: Provide either \x27file\x27 or \x27feature\x27 to test.", none⟩ ∧
    (generate_tests cfg0 (.respond 200 ["\x7b\x7d"]) "owner/repo" none
        (some "user authentication")).call =
      some (⟨"POST", "/test",
             some [("file", optStrVal none), ("feature", optStrVal (some "user authentication")),
                   ("repo", .val (.str "owner/repo"))]⟩,
            request cfg0 "POST" "/test"
              (some [("file", optStrVal none), ("feature", optStrVal (some "user authentication")),
                     ("repo", .val (.str "owner/repo"))]) (.respond 200 ["\x7b\x7d"])) :=
  ⟨(generate_tests_requires_truthy_target cfg0 (.respond 200 ["\x7b\x7d"]) "owner/repo"
      none none (by decide)).2.1 (by decide),
   (generate_tests_requires_truthy_target cfg0 (.respond 200 ["\x7b\x7d"]) "owner/repo"
      none (some "user authentication") (by decide)).2.2 (by decide)⟩
